import Mathlib

/-! Verification of the report-generator pipeline: a shallow embedding of
`report_generator.py` (resilient fetch, three record normalizers, monthly
aggregation, chart encoding, report synthesis, batch orchestration),
followed by theorems about the embedded definitions. -/

namespace ReportGenerator

/-- A raw worksheet grid: row 0 is the header, rows 1.. are data rows
(`worksheet.get_all_values()` shape). -/
abbrev RawGrid := List (List String)

/-- Equality of fallible results is decidable when both components are. -/
instance {ε α : Type} [DecidableEq ε] [DecidableEq α] : DecidableEq (Except ε α) :=
  fun x y =>
    match x, y with
    | .ok a, .ok b =>
      if h : a = b then isTrue (by rw [h]) else isFalse (by intro hc; cases hc; exact h rfl)
    | .ok _, .error _ => isFalse (by intro hc; cases hc)
    | .error _, .ok _ => isFalse (by intro hc; cases hc)
    | .error e, .error f =>
      if h : e = f then isTrue (by rw [h]) else isFalse (by intro hc; cases hc; exact h rfl)

/- ### Cell parsing: models of `pd.to_datetime(..., format='%d/%m/%Y',
errors='coerce')` and `pd.to_numeric(..., errors='coerce')`. -/

/-- Digits of a decimal string folded into a natural number. -/
def digitsToNat (ds : List Char) : Nat :=
  ds.foldl (fun n c => n * 10 + (c.toNat - 48)) 0

/-- Every character is an ASCII digit. -/
def isDigits (ds : List Char) : Bool :=
  ds.all (fun c => c.isDigit)

/-- Split a character list at every occurrence of `sep` (the semantics of
`str.split(sep)` for a one-character separator). -/
def splitOnChar (sep : Char) : List Char → List (List Char)
  | [] => [[]]
  | c :: rest =>
    if c = sep then [] :: splitOnChar sep rest
    else
      match splitOnChar sep rest with
      | [] => [[c]]
      | g :: gs => (c :: g) :: gs

/-- Strip surrounding whitespace. -/
def trimChars (cs : List Char) : List Char :=
  ((cs.dropWhile (fun c => c.isWhitespace)).reverse.dropWhile
    (fun c => c.isWhitespace)).reverse

/-- Unsigned decimal literal (digits with at most one dot, at least one
digit overall), the shapes `float` accepts after sign removal. -/
def parseUnsigned (cs : List Char) : Option Rat :=
  match splitOnChar '.' cs with
  | [a] =>
    if 0 < a.length && isDigits a then some ((digitsToNat a : Nat) : Rat)
    else none
  | [a, b] =>
    if 0 < a.length + b.length && isDigits a && isDigits b then
      some ((digitsToNat a : Rat) + (digitsToNat b : Rat) / ((10 : Rat) ^ b.length))
    else none
  | _ => none

/-- Model of `pd.to_numeric(cell, errors='coerce')` on a string cell:
optional surrounding whitespace and sign, decimal literal; anything else
coerces to absent (`NaN`). -/
def parseNumber (s : String) : Option Rat :=
  match trimChars s.toList with
  | '-' :: rest => (parseUnsigned rest).map (fun q => -q)
  | '+' :: rest => parseUnsigned rest
  | cs => parseUnsigned cs

/-- Calendar date (year, month, day). -/
structure Date where
  year : Nat
  month : Nat
  day : Nat
deriving DecidableEq

/-- Leap-year rule used to validate day-of-month. -/
def isLeap (y : Nat) : Bool :=
  (y % 4 == 0 && y % 100 != 0) || (y % 400 == 0)

/-- Number of days of month `m` in year `y`. -/
def daysInMonth (y m : Nat) : Nat :=
  if m == 2 then (if isLeap y then 29 else 28)
  else if m == 4 || m == 6 || m == 9 || m == 11 then 30
  else 31

/-- Digit-only field, as `strptime` directives consume. -/
def parseNatField (cs : List Char) : Option Nat :=
  if 0 < cs.length && isDigits cs then some (digitsToNat cs) else none

/-- Model of `pd.to_datetime(cell, format='%d/%m/%Y', errors='coerce')`:
day (1-2 digits) / month (1-2 digits) / year (4 digits), validated against
the calendar; anything else coerces to absent (`NaT`). -/
def parseDate (s : String) : Option Date :=
  match splitOnChar '/' s.toList with
  | [d, m, y] =>
    if d.length ≤ 2 && m.length ≤ 2 && y.length == 4 then
      match parseNatField d, parseNatField m, parseNatField y with
      | some dn, some mn, some yn =>
        if 1 ≤ mn ∧ mn ≤ 12 ∧ 1 ≤ dn ∧ dn ≤ daysInMonth yn mn then some ⟨yn, mn, dn⟩
        else none
      | _, _, _ => none
    else none
  | _ => none

/-- `str.replace(r"[^\d.]", "", regex=True)`: keep only digits and dots. -/
def stripNonNumeric (s : String) : String :=
  String.mk (s.toList.filter (fun c => c.isDigit || c == '.'))

/-- `str.replace("%", "", regex=True)`: remove every `%` character. -/
def stripPercentChars (s : String) : String :=
  String.mk (s.toList.filter (fun c => c != '%'))

/-- Currency/numeric coercion (lines 31, 44-47): strip non-numeric
characters, then numeric parse with coercion to absent. -/
def coerceCurrency (s : String) : Option Rat :=
  parseNumber (stripNonNumeric s)

/-- Percentage coercion (line 32): remove `%` characters, numeric parse,
divide by 100. -/
def coercePercent (s : String) : Option Rat :=
  (parseNumber (stripPercentChars s)).map (fun q => q / 100)

/- ### Typed tables (the three normalizer outputs) -/

/-- One normalized PRODUCTS row (line 33 projection). -/
structure ListingsRow where
  uploadedDate : Option Date
  price : Option Rat
  profitPresent : Option Rat
deriving DecidableEq

/-- One normalized ORDERS row (line 48 projection). -/
structure OrdersRow where
  purchaseDate : Option Date
  price : Option Rat
  profitUsd : Option Rat
  totalSales : Option Rat
  totalProfits : Option Rat
deriving DecidableEq

/-- One normalized HOURSWORKED row (line 60 projection). -/
structure TimeRow where
  date : Option Date
  hours : Option Rat
deriving DecidableEq

/-- Normalized PRODUCTS table: the column labels the resulting frame
carries plus its rows (`pd.DataFrame()` has an empty column list). -/
structure ListingsTable where
  columns : List String
  rows : List ListingsRow
deriving DecidableEq

/-- Normalized ORDERS table with its column labels. -/
structure OrdersTable where
  columns : List String
  rows : List OrdersRow
deriving DecidableEq

/-- Normalized HOURSWORKED table with its column labels. -/
structure TimeTable where
  columns : List String
  rows : List TimeRow
deriving DecidableEq

/-- Target columns of the listings projection (line 33). -/
def listingsCols : List String :=
  ["Date Uploaded", "eBay Price", "Profit Per Product Present"]

/-- Target columns of the orders projection (line 48). -/
def ordersCols : List String :=
  ["Date Of Purchase", "eBay Price", "Profit Per Sale USD", "Total Sales", "Total Profits"]

/-- Target columns of the hours projection (line 60). -/
def timeCols : List String :=
  ["Date", "Hours"]

/-- Source columns the PRODUCTS normalizer reads (lines 30-32). -/
def productsSourceCols : List String :=
  ["Date Uploaded:", "eBay Price", "Profit Per Product Present"]

/-- Source columns the ORDERS normalizer reads (lines 43-47). -/
def ordersSourceCols : List String :=
  ["Date Of Purchase", "eBay Price", "Profit Per Sale USD", "Total Sales", "Total Profits"]

/-- Source columns the HOURSWORKED normalizer reads (lines 58-59). -/
def timeSourceCols : List String :=
  ["Date:", "Hours:"]

/-- Column lookup by name, as `df[name]` over the header row: index of the
first occurrence, or a raised `KeyError` for a missing column (the
structural schema mismatch). -/
def colIndex (header : List String) (name : String) : Except String Nat :=
  match header with
  | [] => .error (s!"KeyError: {name}")
  | c :: rest =>
    if c = name then .ok 0 else (colIndex rest name).map (fun i => i + 1)

/-- Cell of a data row at a column index; a row shorter than the header
reads as an empty cell (which every coercion sends to absent). -/
def cellAt (row : List String) (i : Nat) : String :=
  row.getD i ""

/-- Lines 27-34: build rows from `raw[1:]` with `raw[0]` as header, coerce
the three source columns, project to `listingsCols`; with fewer than 2
grid rows return the empty, column-less `pd.DataFrame()`. -/
def products_from_grid (raw : RawGrid) : Except String ListingsTable :=
  if raw.length > 1 then
    match colIndex (raw.headD []) "Date Uploaded:" with
    | .error e => .error e
    | .ok iDate =>
      match colIndex (raw.headD []) "eBay Price" with
      | .error e => .error e
      | .ok iPrice =>
        match colIndex (raw.headD []) "Profit Per Product Present" with
        | .error e => .error e
        | .ok iProfit =>
          .ok { columns := listingsCols,
                rows := raw.tail.map (fun r =>
                  { uploadedDate := parseDate (cellAt r iDate),
                    price := coerceCurrency (cellAt r iPrice),
                    profitPresent := coercePercent (cellAt r iProfit) }) }
  else .ok { columns := [], rows := [] }

/-- Lines 40-49: the ORDERS normalizer. -/
def orders_from_grid (raw : RawGrid) : Except String OrdersTable :=
  if raw.length > 1 then
    match colIndex (raw.headD []) "Date Of Purchase" with
    | .error e => .error e
    | .ok iDate =>
      match colIndex (raw.headD []) "eBay Price" with
      | .error e => .error e
      | .ok iPrice =>
        match colIndex (raw.headD []) "Profit Per Sale USD" with
        | .error e => .error e
        | .ok iProfit =>
          match colIndex (raw.headD []) "Total Sales" with
          | .error e => .error e
          | .ok iSales =>
            match colIndex (raw.headD []) "Total Profits" with
            | .error e => .error e
            | .ok iProfits =>
              .ok { columns := ordersCols,
                    rows := raw.tail.map (fun r =>
                      { purchaseDate := parseDate (cellAt r iDate),
                        price := coerceCurrency (cellAt r iPrice),
                        profitUsd := coerceCurrency (cellAt r iProfit),
                        totalSales := coerceCurrency (cellAt r iSales),
                        totalProfits := coerceCurrency (cellAt r iProfits) }) }
  else .ok { columns := [], rows := [] }

/-- Lines 55-61: the HOURSWORKED normalizer (`Hours:` is parsed directly,
with no character stripping). -/
def hours_from_grid (raw : RawGrid) : Except String TimeTable :=
  if raw.length > 1 then
    match colIndex (raw.headD []) "Date:" with
    | .error e => .error e
    | .ok iDate =>
      match colIndex (raw.headD []) "Hours:" with
      | .error e => .error e
      | .ok iHours =>
        .ok { columns := timeCols,
              rows := raw.tail.map (fun r =>
                { date := parseDate (cellAt r iDate),
                  hours := parseNumber (cellAt r iHours) }) }
  else .ok { columns := [], rows := [] }

/- ### Resilient fetcher (lines 13-21) -/

/-- Observable outcome of `safe_fetch_worksheet`: the grid returned, the
warnings emitted (one per failed attempt), and the backoff delays slept
(one per failed attempt, in order). -/
structure FetchTrace where
  grid : RawGrid
  warnings : List String
  sleeps : List Nat
deriving DecidableEq

/-- The retry loop of lines 14-21: `call n` is the outcome of the n-th
remote attempt; on failure record a warning and the current delay, double
the delay and recurse; out of attempts, return the empty grid. -/
def safeFetchGo (call : Nat → Except String RawGrid) :
    Nat → Nat → Nat → FetchTrace
  | 0, _, _ => { grid := [], warnings := [], sleeps := [] }
  | fuel + 1, attempt, delay =>
    match call attempt with
    | .ok g => { grid := g, warnings := [], sleeps := [] }
    | .error e =>
      let rest := safeFetchGo call fuel (attempt + 1) (delay * 2)
      { grid := rest.grid,
        warnings := (s!"Retrying due to: {e}. Attempt {attempt + 1}") :: rest.warnings,
        sleeps := delay :: rest.sleeps }

/-- `safe_fetch_worksheet(worksheet, retries, delay)` (line 13), with the
remote call abstracted as a per-attempt outcome function. -/
def safe_fetch_worksheet (call : Nat → Except String RawGrid)
    (retries delay : Nat) : FetchTrace :=
  safeFetchGo call retries 0 delay

/- ### Monthly aggregation and chart encoding (lines 64-82, 101-118) -/

/-- Chronological key of `date.dt.to_period('M')`: months since year 0. -/
def monthKey (d : Date) : Nat :=
  d.year * 12 + (d.month - 1)

/-- An aggregated month series: month key paired with the reduced value. -/
abbrev Series := List (Nat × Rat)

/-- `table.groupby(dateColumn.dt.to_period('M'))` followed by a reducer
over each group: rows with an absent date form no group (pandas drops null
group keys); group keys are the sorted distinct month keys. -/
def aggregate {ρ : Type} (rows : List ρ) (getDate : ρ → Option Date)
    (red : List ρ → Rat) : Series :=
  let keys := List.insertionSort (fun a b => a ≤ b)
    ((rows.filterMap (fun r => (getDate r).map monthKey)).dedup)
  keys.map (fun k => (k, red (rows.filter (fun r => (getDate r).map monthKey == some k))))

/-- The opaque PNG buffer of `create_graph`, modeled by the inputs that
determine it. -/
structure ChartBuffer where
  series : Series
  title : String
  xLabel : String
  yLabel : String
  graphType : String
deriving DecidableEq

/-- Lines 64-82: return `None` for an empty series, otherwise the encoded
chart buffer. -/
def create_graph (data : Series) (title xLabel yLabel graphType : String) :
    Option ChartBuffer :=
  if data.isEmpty then none else some ⟨data, title, xLabel, yLabel, graphType⟩

/- ### Report synthesis (lines 85-123) -/

/-- The assembled document: heading name, the three summary totals, and
the embedded chart sections in order. -/
structure Report where
  clientName : String
  totalSales : Rat
  totalProfit : Rat
  totalHours : Rat
  charts : List ChartBuffer
deriving DecidableEq

/-- Lines 85-123: summary totals (`col.sum()` guarded by `'col' in df`,
absent cells skipped, else 0) and the four chart sections, each appended
only when produced, in the fixed order. -/
def generate_report (clientName : String) (products : ListingsTable)
    (orders : OrdersTable) (hours : TimeTable) : Report :=
  { clientName := clientName,
    totalSales :=
      if orders.columns.contains "Total Sales" then
        (orders.rows.filterMap OrdersRow.totalSales).sum
      else 0,
    totalProfit :=
      if orders.columns.contains "Total Profits" then
        (orders.rows.filterMap OrdersRow.totalProfits).sum
      else 0,
    totalHours :=
      if hours.columns.contains "Hours" then
        (hours.rows.filterMap TimeRow.hours).sum
      else 0,
    charts := List.filterMap id
      [ if products.rows.isEmpty then none else
          create_graph (aggregate products.rows ListingsRow.uploadedDate
              (fun g => (g.length : Rat)))
            "Products Uploaded per Month" "Month" "Number of Products" "bar",
        if orders.rows.isEmpty then none else
          create_graph (aggregate orders.rows OrdersRow.purchaseDate
              (fun g => ((g.filter (fun r => r.price.isSome)).length : Rat)))
            "Sales per Month" "Month" "Number of Sales" "bar",
        if orders.rows.isEmpty then none else
          create_graph (aggregate orders.rows OrdersRow.purchaseDate
              (fun g => (g.filterMap OrdersRow.profitUsd).sum))
            "Profit per Month" "Month" "Profit ($)" "bar",
        if hours.rows.isEmpty then none else
          create_graph (aggregate hours.rows TimeRow.date
              (fun g => (g.filterMap TimeRow.hours).sum))
            "Hours Worked per Month" "Month" "Hours" "bar" ] }

/- ### Batch orchestration (lines 139-160) -/

/-- A resolved source: its title and its named sub-table grids. Worksheet
lookup may fail (an unknown tab name raises); the grid itself is the
fail-soft `safe_fetch_worksheet` result, which never raises. -/
structure Sheet where
  title : String
  worksheet : String → Except String RawGrid

/-- The authorized client boundary: URL resolution may fail (bad locator,
access denied). -/
structure Client where
  openByUrl : String → Except String Sheet

/-- Lines 24-26 + 27-34: worksheet access then normalization. -/
def fetch_products_data (client_sheet : Sheet) : Except String ListingsTable := do
  let raw ← client_sheet.worksheet "PRODUCTS"
  products_from_grid raw

/-- Lines 37-39 + 40-49. -/
def fetch_orders_data (client_sheet : Sheet) : Except String OrdersTable := do
  let raw ← client_sheet.worksheet "ORDERS"
  orders_from_grid raw

/-- Lines 52-54 + 55-61. -/
def fetch_hours_data (client_sheet : Sheet) : Except String TimeTable := do
  let raw ← client_sheet.worksheet "HOURSWORKED"
  hours_from_grid raw

/-- The body of the per-source `try` block (lines 143-158): resolve the
URL, fetch and normalize the three tables, synthesize the report. -/
def processOne (client : Client) (url : String) : Except String Report := do
  let client_sheet ← client.openByUrl url
  let products ← fetch_products_data client_sheet
  let orders ← fetch_orders_data client_sheet
  let hours ← fetch_hours_data client_sheet
  .ok (generate_report client_sheet.title products orders hours)

/-- Per-source outcome: a completed report, or the error record shown by
line 160. -/
inductive BatchResult where
  | success (report : Report)
  | failure (sourceId : String) (message : String)
deriving DecidableEq

/-- The message of line 160. -/
def errorMessage (url e : String) : String :=
  s!"Error processing link {url}: {e}"

/-- One iteration of the batch loop (lines 141-160): any raise inside the
`try` is converted to an error record for this source. -/
def processLink (client : Client) (url : String) : BatchResult :=
  match processOne client url with
  | .ok r => .success r
  | .error e => .failure url (errorMessage url e)

/-- The batch loop (lines 139-160): one result per link, in input order. -/
def runBatch (client : Client) (links : List String) : List BatchResult :=
  links.map (processLink client)

/- ### Helper lemmas -/

/-- A successful column lookup implies the name occurs in the header. -/
lemma colIndex_mem : ∀ {header : List String} {name : String} {i : Nat},
    colIndex header name = .ok i → name ∈ header := by
  intro header
  induction header with
  | nil => intro name i h; exact Except.noConfusion h
  | cons c rest ih =>
    intro name i h
    unfold colIndex at h
    by_cases hc : c = name
    · subst hc; exact List.mem_cons_self _ _
    · rw [if_neg hc] at h
      cases hr : colIndex rest name with
      | error e => rw [hr] at h; exact Except.noConfusion h
      | ok j => exact List.mem_cons_of_mem _ (ih hr)

/-- Fewer than 2 grid rows: the PRODUCTS normalizer takes the `else`
branch and returns the column-less empty frame. -/
lemma products_short {raw : RawGrid} (h : raw.length < 2) :
    products_from_grid raw = .ok ⟨[], []⟩ := by
  unfold products_from_grid
  rw [if_neg (by omega)]

/-- Fewer than 2 grid rows: the ORDERS normalizer returns the column-less
empty frame. -/
lemma orders_short {raw : RawGrid} (h : raw.length < 2) :
    orders_from_grid raw = .ok ⟨[], []⟩ := by
  unfold orders_from_grid
  rw [if_neg (by omega)]

/-- Fewer than 2 grid rows: the HOURSWORKED normalizer returns the
column-less empty frame. -/
lemma hours_short {raw : RawGrid} (h : raw.length < 2) :
    hours_from_grid raw = .ok ⟨[], []⟩ := by
  unfold hours_from_grid
  rw [if_neg (by omega)]

/-- Inversion of a successful PRODUCTS normalization: either the short
branch fired, or every source column was found and each data row became
exactly one typed row. -/
lemma products_ok_inv {raw : RawGrid} {t : ListingsTable}
    (h : products_from_grid raw = .ok t) :
    (raw.length ≤ 1 ∧ t = ⟨[], []⟩) ∨
    (1 < raw.length ∧ t.rows.length = raw.length - 1 ∧
      ∀ c ∈ productsSourceCols, c ∈ raw.headD []) := by
  unfold products_from_grid at h
  by_cases hl : raw.length > 1
  · rw [if_pos hl] at h
    cases h1 : colIndex (raw.headD []) "Date Uploaded:" with
    | error e => rw [h1] at h; exact Except.noConfusion h
    | ok i1 =>
      rw [h1] at h
      cases h2 : colIndex (raw.headD []) "eBay Price" with
      | error e => rw [h2] at h; exact Except.noConfusion h
      | ok i2 =>
        rw [h2] at h
        cases h3 : colIndex (raw.headD []) "Profit Per Product Present" with
        | error e => rw [h3] at h; exact Except.noConfusion h
        | ok i3 =>
          rw [h3] at h
          cases h
          refine Or.inr ⟨hl, by simp, ?_⟩
          intro c hc
          simp only [productsSourceCols, List.mem_cons, List.not_mem_nil, or_false] at hc
          rcases hc with rfl | rfl | rfl
          · exact colIndex_mem h1
          · exact colIndex_mem h2
          · exact colIndex_mem h3
  · rw [if_neg hl] at h
    cases h
    exact Or.inl ⟨by omega, rfl⟩

/-- Inversion of a successful ORDERS normalization. -/
lemma orders_ok_inv {raw : RawGrid} {t : OrdersTable}
    (h : orders_from_grid raw = .ok t) :
    (raw.length ≤ 1 ∧ t = ⟨[], []⟩) ∨
    (1 < raw.length ∧ t.rows.length = raw.length - 1 ∧
      ∀ c ∈ ordersSourceCols, c ∈ raw.headD []) := by
  unfold orders_from_grid at h
  by_cases hl : raw.length > 1
  · rw [if_pos hl] at h
    cases h1 : colIndex (raw.headD []) "Date Of Purchase" with
    | error e => rw [h1] at h; exact Except.noConfusion h
    | ok i1 =>
      rw [h1] at h
      cases h2 : colIndex (raw.headD []) "eBay Price" with
      | error e => rw [h2] at h; exact Except.noConfusion h
      | ok i2 =>
        rw [h2] at h
        cases h3 : colIndex (raw.headD []) "Profit Per Sale USD" with
        | error e => rw [h3] at h; exact Except.noConfusion h
        | ok i3 =>
          rw [h3] at h
          cases h4 : colIndex (raw.headD []) "Total Sales" with
          | error e => rw [h4] at h; exact Except.noConfusion h
          | ok i4 =>
            rw [h4] at h
            cases h5 : colIndex (raw.headD []) "Total Profits" with
            | error e => rw [h5] at h; exact Except.noConfusion h
            | ok i5 =>
              rw [h5] at h
              cases h
              refine Or.inr ⟨hl, by simp, ?_⟩
              intro c hc
              simp only [ordersSourceCols, List.mem_cons, List.not_mem_nil, or_false] at hc
              rcases hc with rfl | rfl | rfl | rfl | rfl
              · exact colIndex_mem h1
              · exact colIndex_mem h2
              · exact colIndex_mem h3
              · exact colIndex_mem h4
              · exact colIndex_mem h5
  · rw [if_neg hl] at h
    cases h
    exact Or.inl ⟨by omega, rfl⟩

/-- Inversion of a successful HOURSWORKED normalization. -/
lemma hours_ok_inv {raw : RawGrid} {t : TimeTable}
    (h : hours_from_grid raw = .ok t) :
    (raw.length ≤ 1 ∧ t = ⟨[], []⟩) ∨
    (1 < raw.length ∧ t.rows.length = raw.length - 1 ∧
      ∀ c ∈ timeSourceCols, c ∈ raw.headD []) := by
  unfold hours_from_grid at h
  by_cases hl : raw.length > 1
  · rw [if_pos hl] at h
    cases h1 : colIndex (raw.headD []) "Date:" with
    | error e => rw [h1] at h; exact Except.noConfusion h
    | ok i1 =>
      rw [h1] at h
      cases h2 : colIndex (raw.headD []) "Hours:" with
      | error e => rw [h2] at h; exact Except.noConfusion h
      | ok i2 =>
        rw [h2] at h
        cases h
        refine Or.inr ⟨hl, by simp, ?_⟩
        intro c hc
        simp only [timeSourceCols, List.mem_cons, List.not_mem_nil, or_false] at hc
        rcases hc with rfl | rfl
        · exact colIndex_mem h1
        · exact colIndex_mem h2
  · rw [if_neg hl] at h
    cases h
    exact Or.inl ⟨by omega, rfl⟩

/-- The aggregation keys are sorted, duplicate-free month keys. -/
lemma aggregate_keys_sorted {ρ : Type} (rows : List ρ) (getDate : ρ → Option Date)
    (red : List ρ → Rat) :
    List.Sorted (fun a b => a < b) ((aggregate rows getDate red).map Prod.fst) := by
  unfold aggregate
  rw [List.map_map]
  have hid : (Prod.fst ∘ fun k : Nat =>
      (k, red (rows.filter (fun r => (getDate r).map monthKey == some k)))) = id := by
    funext k; rfl
  rw [hid, List.map_id]
  have hs := List.sorted_insertionSort (fun a b : Nat => a ≤ b)
    ((rows.filterMap (fun r => (getDate r).map monthKey)).dedup)
  have hperm := List.perm_insertionSort (fun a b : Nat => a ≤ b)
    ((rows.filterMap (fun r => (getDate r).map monthKey)).dedup)
  have hnd : (List.insertionSort (fun a b : Nat => a ≤ b)
      ((rows.filterMap (fun r => (getDate r).map monthKey)).dedup)).Nodup :=
    hperm.nodup_iff.mpr (List.nodup_dedup _)
  exact (hs.and hnd).imp (fun hab => lt_of_le_of_ne hab.1 hab.2)

/-- Filtering by a weaker predicate first does not change a filter by a
stronger one. -/
lemma filter_filter_of_imp {α : Type} (p q : α → Bool)
    (h : ∀ a, q a = true → p a = true) :
    ∀ l : List α, (l.filter p).filter q = l.filter q := by
  intro l
  induction l with
  | nil => rfl
  | cons a t ih =>
    by_cases hq : q a = true
    · have hp := h a hq
      simp [List.filter_cons, hp, hq, ih]
    · by_cases hp : p a = true <;>
        simp [List.filter_cons, hp, hq, ih]

/-- Rows whose date is absent leave both the key set and every month
group unchanged: aggregation ignores them entirely. -/
lemma aggregate_absent_excluded {ρ : Type} (rows : List ρ) (getDate : ρ → Option Date)
    (red : List ρ → Rat) :
    aggregate (rows.filter fun r => (getDate r).isSome) getDate red
      = aggregate rows getDate red := by
  unfold aggregate
  have h1 : (rows.filter fun r => (getDate r).isSome).filterMap
        (fun r => (getDate r).map monthKey)
      = rows.filterMap (fun r => (getDate r).map monthKey) := by
    induction rows with
    | nil => rfl
    | cons a t ih =>
      cases hg : getDate a with
      | none => simp [List.filter_cons, List.filterMap_cons, hg, ih]
      | some d => simp [List.filter_cons, List.filterMap_cons, hg, ih]
  have h2 : ∀ k : Nat, ((rows.filter fun r => (getDate r).isSome).filter
        (fun r => (getDate r).map monthKey == some k))
      = rows.filter (fun r => (getDate r).map monthKey == some k) := by
    intro k
    refine filter_filter_of_imp _ _ (fun r hr => ?_) rows
    cases hg : getDate r with
    | none => rw [hg] at hr; simp at hr
    | some d => simp [hg]
  rw [h1]
  exact List.map_congr_left (fun k _ => by rw [h2 k])

/-- `aggregate` of no rows is the empty series. -/
lemma aggregate_nil {ρ : Type} (getDate : ρ → Option Date) (red : List ρ → Rat) :
    aggregate [] getDate red = [] := rfl

/-- The emptiness guard in front of a chart block is redundant: the
encoder already returns `none` on the empty aggregation of no rows. -/
lemma chart_guard {ρ : Type} (rows : List ρ) (getDate : ρ → Option Date)
    (red : List ρ → Rat) (t x y k : String) :
    (if rows.isEmpty then none else create_graph (aggregate rows getDate red) t x y k)
      = create_graph (aggregate rows getDate red) t x y k := by
  cases rows with
  | nil => rfl
  | cons a l => rfl

/-- When every attempt fails, the retry loop consumes all its fuel: no
grid, one warning per attempt, and doubling delays starting at `delay`. -/
lemma safeFetchGo_all_fail (call : Nat → Except String RawGrid) :
    ∀ (fuel attempt delay : Nat),
      (∀ i, i < fuel → ∃ e, call (attempt + i) = .error e) →
      (safeFetchGo call fuel attempt delay).grid = []
      ∧ (safeFetchGo call fuel attempt delay).warnings.length = fuel
      ∧ (safeFetchGo call fuel attempt delay).sleeps
          = (List.range fuel).map (fun i => delay * 2 ^ i) := by
  intro fuel
  induction fuel with
  | zero => intro attempt delay h; exact ⟨rfl, rfl, rfl⟩
  | succ n ih =>
    intro attempt delay h
    obtain ⟨e, he⟩ := h 0 (Nat.succ_pos n)
    rw [Nat.add_zero] at he
    have hrest := ih (attempt + 1) (delay * 2) (fun i hi => by
      have hcall := h (i + 1) (by omega)
      rwa [show attempt + (i + 1) = attempt + 1 + i by omega] at hcall)
    refine ⟨?_, ?_, ?_⟩ <;> simp only [safeFetchGo, he]
    · exact hrest.1
    · simp [hrest.2.1]
    · rw [hrest.2.2, List.range_succ_eq_map, List.map_cons, List.map_map]
      congr 1
      · simp
      · exact List.map_congr_left (fun i _ => by
          simp only [Function.comp_apply, pow_succ]
          ring)

/-- Bind on a successful result applies the continuation. -/
lemma bind_ok {ε α β : Type} (a : α) (f : α → Except ε β) :
    (Except.ok a : Except ε α) >>= f = f a := rfl

/-- Bind on a raised error propagates it. -/
lemma bind_error {ε α β : Type} (e : ε) (f : α → Except ε β) :
    (Except.error e : Except ε α) >>= f = .error e := rfl

/-- Mapping commutes with index removal. -/
lemma map_eraseIdx {α β : Type} (f : α → β) :
    ∀ (l : List α) (k : Nat), (l.eraseIdx k).map f = (l.map f).eraseIdx k := by
  intro l
  induction l with
  | nil => intro k; rfl
  | cons a t ih =>
    intro k
    cases k with
    | zero => rfl
    | succ k => simp [List.eraseIdx, ih]

/- ### Claim theorems -/

/-- C1: the batch orchestrator yields exactly one BatchResult per link in
input order; each result depends only on its own link (so a failing
source k leaves every other result the completed report it would have
produced without k, and removing a link removes exactly its result); a
source whose processing raises yields an error record carrying that
source identifier and a message. -/
theorem batch_isolated (client : Client) (links : List String) :
    (runBatch client links).length = links.length
    ∧ (∀ (k : Nat) (url : String), links[k]? = some url →
        (runBatch client links)[k]? = some (processLink client url))
    ∧ (∀ url e, processOne client url = .error e →
        processLink client url = .failure url (errorMessage url e))
    ∧ (∀ k, runBatch client (links.eraseIdx k) = (runBatch client links).eraseIdx k) := by
  refine ⟨by simp [runBatch], ?_, ?_, ?_⟩
  · intro k url hk
    simp [runBatch, List.getElem?_map, hk]
  · intro url e he
    simp [processLink, he]
  · intro k
    simp [runBatch, map_eraseIdx]

/-- Witness for C1: a client that denies access to url `bad` makes its
result the labeled error record. -/
theorem batch_isolated_witness :
    processLink ⟨fun u => if u = "good" then .ok ⟨"A", fun _ => .ok []⟩
        else .error "no access"⟩ "bad"
      = .failure "bad" (errorMessage "bad" "no access") :=
  (batch_isolated ⟨fun u => if u = "good" then .ok ⟨"A", fun _ => .ok []⟩
      else .error "no access"⟩ ["bad"]).2.2.1 "bad" "no access" (by decide)

/-- C2 counterexample: on a header-only grid every normalizer returns the
column-less empty frame, so the schema's target columns are NOT present,
contradicting the claim. -/
theorem short_grid_no_columns_cex :
    products_from_grid [productsSourceCols] = .ok ⟨[], []⟩
    ∧ orders_from_grid [ordersSourceCols] = .ok ⟨[], []⟩
    ∧ hours_from_grid [timeSourceCols] = .ok ⟨[], []⟩
    ∧ ([] : List String) ≠ listingsCols
    ∧ ([] : List String) ≠ ordersCols
    ∧ ([] : List String) ≠ timeCols := by
  refine ⟨by decide, by decide, by decide, by decide, by decide, by decide⟩

/-- C2 amended: for every RawGrid with fewer than 2 rows, each normalizer
returns an empty TypedTable with zero rows and an empty column list (the
schema's target columns are not present). -/
theorem short_grid_empty (grid : RawGrid) (h : grid.length < 2) :
    products_from_grid grid = .ok ⟨[], []⟩
    ∧ orders_from_grid grid = .ok ⟨[], []⟩
    ∧ hours_from_grid grid = .ok ⟨[], []⟩ :=
  ⟨products_short h, orders_short h, hours_short h⟩

/-- Witness for C2: the empty grid takes the short branch. -/
theorem short_grid_empty_witness :
    products_from_grid [] = .ok ⟨[], []⟩
    ∧ orders_from_grid [] = .ok ⟨[], []⟩
    ∧ hours_from_grid [] = .ok ⟨[], []⟩ :=
  short_grid_empty [] (by decide)

/-- C3: when every remote attempt fails, the fetcher makes exactly
`retries` attempts (one warning each), sleeps after every failed attempt
with delays `d, 2d, 4d, ...`, and returns the empty grid. -/
theorem retry_exhaustion (call : Nat → Except String RawGrid) (retries delay : Nat)
    (hfail : ∀ i, i < retries → ∃ e, call i = .error e) :
    (safe_fetch_worksheet call retries delay).grid = []
    ∧ (safe_fetch_worksheet call retries delay).warnings.length = retries
    ∧ (safe_fetch_worksheet call retries delay).sleeps
        = (List.range retries).map (fun i => delay * 2 ^ i) := by
  unfold safe_fetch_worksheet
  exact safeFetchGo_all_fail call retries 0 delay (fun i hi => by
    simpa using hfail i hi)

/-- Witness for C3: 3 retries with initial delay 2 sleep 2, 4, 8 and
return the empty grid. -/
theorem retry_exhaustion_witness :
    (safe_fetch_worksheet (fun _ => .error "boom") 3 2).grid = []
    ∧ (safe_fetch_worksheet (fun _ => .error "boom") 3 2).warnings.length = 3
    ∧ (safe_fetch_worksheet (fun _ => .error "boom") 3 2).sleeps
        = (List.range 3).map (fun i => 2 * 2 ^ i) :=
  retry_exhaustion (fun _ => .error "boom") 3 2 (fun _ _ => ⟨"boom", rfl⟩)

/-- C4: a grid with data rows whose header lacks a required source column
makes the normalizer fail loudly (each schema), and through the
orchestrator that failure becomes the source's error BatchResult. -/
theorem missing_column_fatal :
    (∀ grid : RawGrid, 1 < grid.length →
      ∀ c ∈ productsSourceCols, c ∉ grid.headD [] →
        ∃ e, products_from_grid grid = .error e)
    ∧ (∀ grid : RawGrid, 1 < grid.length →
      ∀ c ∈ ordersSourceCols, c ∉ grid.headD [] →
        ∃ e, orders_from_grid grid = .error e)
    ∧ (∀ grid : RawGrid, 1 < grid.length →
      ∀ c ∈ timeSourceCols, c ∉ grid.headD [] →
        ∃ e, hours_from_grid grid = .error e)
    ∧ (∀ (client : Client) (url : String) (sh : Sheet) (grid : RawGrid),
        client.openByUrl url = .ok sh → sh.worksheet "PRODUCTS" = .ok grid →
        1 < grid.length →
        ∀ c ∈ productsSourceCols, c ∉ grid.headD [] →
          ∃ msg, processLink client url = .failure url msg) := by
  have hp : ∀ grid : RawGrid, 1 < grid.length →
      ∀ c ∈ productsSourceCols, c ∉ grid.headD [] →
        ∃ e, products_from_grid grid = .error e := by
    intro grid hl c hc hmiss
    cases hres : products_from_grid grid with
    | error e => exact ⟨e, rfl⟩
    | ok t =>
      rcases products_ok_inv hres with ⟨hle, _⟩ | ⟨_, _, hmem⟩
      · omega
      · exact absurd (hmem c hc) hmiss
  refine ⟨hp, ?_, ?_, ?_⟩
  · intro grid hl c hc hmiss
    cases hres : orders_from_grid grid with
    | error e => exact ⟨e, rfl⟩
    | ok t =>
      rcases orders_ok_inv hres with ⟨hle, _⟩ | ⟨_, _, hmem⟩
      · omega
      · exact absurd (hmem c hc) hmiss
  · intro grid hl c hc hmiss
    cases hres : hours_from_grid grid with
    | error e => exact ⟨e, rfl⟩
    | ok t =>
      rcases hours_ok_inv hres with ⟨hle, _⟩ | ⟨_, _, hmem⟩
      · omega
      · exact absurd (hmem c hc) hmiss
  · intro client url sh grid hopen hws hl c hc hmiss
    obtain ⟨e, he⟩ := hp grid hl c hc hmiss
    refine ⟨errorMessage url e, ?_⟩
    have hproc : processOne client url = .error e := by
      simp only [processOne, fetch_products_data, hopen, bind_ok, hws, he, bind_error]
    simp [processLink, hproc]

/-- Witness for C4: a products grid lacking `eBay Price` yields an error
record end to end. -/
theorem missing_column_fatal_witness :
    ∃ msg, processLink
        ⟨fun _ => .ok ⟨"T", fun _ =>
          .ok [["Date Uploaded:", "Profit Per Product Present"], ["x", "y"]]⟩⟩ "u"
      = .failure "u" msg :=
  missing_column_fatal.2.2.2
    ⟨fun _ => .ok ⟨"T", fun _ =>
      .ok [["Date Uploaded:", "Profit Per Product Present"], ["x", "y"]]⟩⟩ "u"
    ⟨"T", fun _ => .ok [["Date Uploaded:", "Profit Per Product Present"], ["x", "y"]]⟩
    [["Date Uploaded:", "Profit Per Product Present"], ["x", "y"]]
    rfl rfl (by decide) "eBay Price" (by decide) (by decide)

/-- C5: whenever a normalizer succeeds on a grid with at least 2 rows, the
typed table has exactly one row per data row — coercion never drops a
row. -/
theorem normalize_row_count (grid : RawGrid) (h2 : 2 ≤ grid.length) :
    (∀ t, products_from_grid grid = .ok t → t.rows.length = grid.length - 1)
    ∧ (∀ t, orders_from_grid grid = .ok t → t.rows.length = grid.length - 1)
    ∧ (∀ t, hours_from_grid grid = .ok t → t.rows.length = grid.length - 1) := by
  refine ⟨fun t ht => ?_, fun t ht => ?_, fun t ht => ?_⟩
  · rcases products_ok_inv ht with ⟨hle, _⟩ | ⟨_, hlen, _⟩
    · omega
    · exact hlen
  · rcases orders_ok_inv ht with ⟨hle, _⟩ | ⟨_, hlen, _⟩
    · omega
    · exact hlen
  · rcases hours_ok_inv ht with ⟨hle, _⟩ | ⟨_, hlen, _⟩
    · omega
    · exact hlen

/-- Witness for C5: one data row of unparseable cells still yields one
typed row. -/
theorem normalize_row_count_witness :
    (ListingsTable.mk listingsCols [⟨none, none, none⟩]).rows.length
      = ([productsSourceCols, ["a", "b", "c"]] : RawGrid).length - 1 :=
  (normalize_row_count [productsSourceCols, ["a", "b", "c"]] (by decide)).1
    ⟨listingsCols, [⟨none, none, none⟩]⟩ (by decide)

/-- C6 counterexample: the claim says a percentage cell has only a
trailing `%` stripped, so `"4%5"` (whose `%` is not trailing) should be
unparseable and coerce to absent; the normalizer instead strips every
`%` and yields `0.45`. -/
theorem percent_strip_cex :
    products_from_grid [productsSourceCols, ["", "", "4%5"]]
      = .ok ⟨listingsCols, [⟨none, none, some (9/20)⟩]⟩ := by
  have base : products_from_grid [productsSourceCols, ["", "", "4%5"]]
      = .ok ⟨listingsCols, [⟨none, none, coercePercent "4%5"⟩]⟩ := rfl
  have hc : coercePercent "4%5" = some ((9 : Rat)/20) := by
    rw [show coercePercent "4%5" = some ((((45 : Nat) : Rat)) / 100) from rfl]
    norm_num
  rw [base, hc]

/-- C6 amended: coercion never raises on malformed cells (a grid with the
schema's header always normalizes, one typed row per data row), currency
cells drop every non-digit non-dot character, percentage cells drop every
`%` character (wherever it occurs) and are divided by 100, dates parse as
day/month/year, and unparseable or empty cells become absent: `"£12.50"`
gives price `12.50`, `"45%"` gives `0.45`, `"1%.5"` gives `0.015`,
`"not-a-date"` and `""` give absent. -/
theorem coercion_rules :
    (∀ rows : List (List String),
      ∃ t, products_from_grid (productsSourceCols :: rows) = .ok t
        ∧ t.rows.length = rows.length)
    ∧ products_from_grid
        [productsSourceCols, ["not-a-date", "£12.50", "45%"], ["01/02/2023", "", "1%.5"]]
      = .ok ⟨listingsCols,
          [⟨none, some (25/2), some (9/20)⟩,
           ⟨some ⟨2023, 2, 1⟩, none, some (3/200)⟩]⟩ := by
  constructor
  · intro rows
    cases rows with
    | nil => exact ⟨⟨[], []⟩, by decide, rfl⟩
    | cons r rs =>
      have hlen : (productsSourceCols :: r :: rs : RawGrid).length > 1 := by simp
      unfold products_from_grid
      rw [if_pos hlen]
      refine ⟨_, rfl, by simp⟩
  · have base : products_from_grid
        [productsSourceCols, ["not-a-date", "£12.50", "45%"], ["01/02/2023", "", "1%.5"]]
        = .ok ⟨listingsCols,
            [⟨none, coerceCurrency "£12.50", coercePercent "45%"⟩,
             ⟨some ⟨2023, 2, 1⟩, none, coercePercent "1%.5"⟩]⟩ := rfl
    have hc1 : coerceCurrency "£12.50" = some ((25 : Rat)/2) := by
      rw [show coerceCurrency "£12.50"
          = some (((12 : Nat) : Rat) + ((50 : Nat) : Rat) / (10 : Rat) ^ (2 : Nat)) from rfl]
      norm_num
    have hc2 : coercePercent "45%" = some ((9 : Rat)/20) := by
      rw [show coercePercent "45%" = some ((((45 : Nat) : Rat)) / 100) from rfl]
      norm_num
    have hc3 : coercePercent "1%.5" = some ((3 : Rat)/200) := by
      rw [show coercePercent "1%.5"
          = some ((((1 : Nat) : Rat) + ((5 : Nat) : Rat) / (10 : Rat) ^ (1 : Nat)) / 100) from rfl]
      norm_num
    rw [base, hc1, hc2, hc3]

/-- C7: aggregation keys are strictly chronological with no duplicate
month, and rows with an absent date are excluded entirely (filtering
them away leaves the aggregation unchanged), for any row ordering. -/
theorem aggregate_month_contract {ρ : Type} (rows : List ρ) (getDate : ρ → Option Date)
    (red : List ρ → Rat) :
    List.Sorted (fun a b => a < b) ((aggregate rows getDate red).map Prod.fst)
    ∧ aggregate (rows.filter fun r => (getDate r).isSome) getDate red
        = aggregate rows getDate red :=
  ⟨aggregate_keys_sorted rows getDate red, aggregate_absent_excluded rows getDate red⟩

/-- C8: the report's chart sections are exactly the four prescribed
aggregations, in the fixed order listings count, order count, profit sum,
hours sum, each present precisely when the chart encoder returns a
non-absent buffer for that aggregation. -/
theorem report_chart_sections (clientName : String) (products : ListingsTable)
    (orders : OrdersTable) (hours : TimeTable) :
    (generate_report clientName products orders hours).charts =
      [ create_graph (aggregate products.rows ListingsRow.uploadedDate
            (fun g => (g.length : Rat)))
          "Products Uploaded per Month" "Month" "Number of Products" "bar",
        create_graph (aggregate orders.rows OrdersRow.purchaseDate
            (fun g => ((g.filter (fun r => r.price.isSome)).length : Rat)))
          "Sales per Month" "Month" "Number of Sales" "bar",
        create_graph (aggregate orders.rows OrdersRow.purchaseDate
            (fun g => (g.filterMap OrdersRow.profitUsd).sum))
          "Profit per Month" "Month" "Profit ($)" "bar",
        create_graph (aggregate hours.rows TimeRow.date
            (fun g => (g.filterMap TimeRow.hours).sum))
          "Hours Worked per Month" "Month" "Hours" "bar" ].filterMap id := by
  simp only [generate_report, chart_guard]

/-- C9: the chart encoder returns absent exactly on the empty series. -/
theorem create_graph_absent_iff (data : Series) (t x y k : String) :
    create_graph data t x y k = none ↔ data = [] := by
  cases data <;> simp [create_graph]

/-- C10: a grid with fewer than 2 rows normalizes to the empty frame
without consulting the header, so the missing-column failure is reachable
only when the grid has at least one data row. -/
theorem header_check_unreachable :
    (∀ grid : RawGrid, grid.length < 2 →
      products_from_grid grid = .ok ⟨[], []⟩ ∧ orders_from_grid grid = .ok ⟨[], []⟩
        ∧ hours_from_grid grid = .ok ⟨[], []⟩)
    ∧ (∀ (grid : RawGrid) (e : String),
        products_from_grid grid = .error e → 2 ≤ grid.length)
    ∧ (∀ (grid : RawGrid) (e : String),
        orders_from_grid grid = .error e → 2 ≤ grid.length)
    ∧ (∀ (grid : RawGrid) (e : String),
        hours_from_grid grid = .error e → 2 ≤ grid.length) := by
  refine ⟨fun g h => ⟨products_short h, orders_short h, hours_short h⟩, ?_, ?_, ?_⟩
  · intro g e he
    by_contra hlt
    push_neg at hlt
    rw [products_short hlt] at he
    exact Except.noConfusion he
  · intro g e he
    by_contra hlt
    push_neg at hlt
    rw [orders_short hlt] at he
    exact Except.noConfusion he
  · intro g e he
    by_contra hlt
    push_neg at hlt
    rw [hours_short hlt] at he
    exact Except.noConfusion he

/-- Witness for C10: a header-only grid with none of the required columns
still normalizes without error, and a failing grid has at least 2 rows. -/
theorem header_check_unreachable_witness :
    products_from_grid [["wrong"]] = .ok ⟨[], []⟩
    ∧ 2 ≤ ([["a"], ["b"]] : RawGrid).length :=
  ⟨(header_check_unreachable.1 [["wrong"]] (by decide)).1,
   header_check_unreachable.2.1 [["a"], ["b"]] "KeyError: Date Uploaded:" (by decide)⟩

end ReportGenerator
